import Mathlib

/-!
Verification of the YouTube Music proxy API (`src/music/src/api`).

The Python source is shallowly embedded: pure request/response logic becomes
Lean functions, exceptions become `Except`, per-request side effects
(JSON decoding, upstream client construction, file existence) become explicit
environment parameters, and the filesystem becomes an explicit existence map
threaded through the handlers that touch it.
-/

namespace YTProxy

/-! ### String utilities

Python's `in` test on strings is substring containment; we model it over
character lists. -/

/-- Tests whether `needle` is an initial segment of `hay`. -/
def startsWithL : List Char → List Char → Bool
  | [], _ => true
  | _ :: _, [] => false
  | a :: as, b :: bs => a == b && startsWithL as bs

/-- Tests whether `needle` occurs contiguously anywhere in `hay`
(Python's `needle in hay`). -/
def hasSubL (needle : List Char) : List Char → Bool
  | [] => startsWithL needle []
  | c :: cs => startsWithL needle (c :: cs) || hasSubL needle cs

/-- Substring containment on strings: Python's `needle in hay`. -/
def strContains (hay needle : String) : Bool :=
  hasSubL needle.toList hay.toList

/-- Tests whether string `s` starts with the string `pre`. -/
def strStartsWith (s pre : String) : Bool :=
  startsWithL pre.toList s.toList

/-- Truthiness of an optional string header value, as Python evaluates it in
`if x:`: `None` and the empty string are falsy. -/
def pyTruthy : Option String → Bool
  | none => false
  | some s => !s.isEmpty

/-- Lowercasing a string character by character, modelling Python's
`str.lower()` on the ASCII range. -/
def lowerStr (s : String) : String :=
  String.mk (s.toList.map Char.toLower)

/-! ### Error classifier (`handle_ytmusic_error`, app.py lines 84-107) -/

/-- An HTTPException as raised by the handlers: status code and detail text. -/
structure HTTPError where
  status : Nat
  detail : String
deriving DecidableEq

/-- Embedding of `handle_ytmusic_error`: converts the text of an upstream
exception (`str(exc)`) to an HTTP error by substring tests on the lowercased
message, in source order. -/
def handle_ytmusic_error (error_msg : String) : HTTPError :=
  if strContains (lowerStr error_msg) "authentication" then
    { status := 401, detail := error_msg }
  else if strContains (lowerStr error_msg) "not found" then
    { status := 404, detail := error_msg }
  else if strContains (lowerStr error_msg) "invalid"
      || strContains (lowerStr error_msg) "bad" then
    { status := 400, detail := error_msg }
  else
    { status := 500, detail := "Internal error: " ++ error_msg }

/-- C1: the classifier's status is determined by the lowercased exception text
with first-match-wins ordering: "authentication" yields 401 with the original
message; otherwise "not found" yields 404; otherwise "invalid" or "bad" yields
400; otherwise 500 with the message prefixed by "Internal error: ". -/
theorem C1_error_classifier (msg : String) :
    (strContains (lowerStr msg) "authentication" = true →
      handle_ytmusic_error msg = ⟨401, msg⟩) ∧
    (strContains (lowerStr msg) "authentication" = false →
      strContains (lowerStr msg) "not found" = true →
      handle_ytmusic_error msg = ⟨404, msg⟩) ∧
    (strContains (lowerStr msg) "authentication" = false →
      strContains (lowerStr msg) "not found" = false →
      (strContains (lowerStr msg) "invalid" = true ∨ strContains (lowerStr msg) "bad" = true) →
      handle_ytmusic_error msg = ⟨400, msg⟩) ∧
    (strContains (lowerStr msg) "authentication" = false →
      strContains (lowerStr msg) "not found" = false →
      strContains (lowerStr msg) "invalid" = false →
      strContains (lowerStr msg) "bad" = false →
      handle_ytmusic_error msg = ⟨500, "Internal error: " ++ msg⟩) := by
  refine ⟨?_, ?_, ?_, ?_⟩ <;> intros <;> simp_all [handle_ytmusic_error]

/-- C1 witness: the classifier evaluated on one concrete message per branch. -/
theorem C1_error_classifier_witness :
    handle_ytmusic_error "Please provide authentication" =
      ⟨401, "Please provide authentication"⟩ ∧
    handle_ytmusic_error "Playlist not found" = ⟨404, "Playlist not found"⟩ ∧
    handle_ytmusic_error "Invalid privacy status" = ⟨400, "Invalid privacy status"⟩ ∧
    handle_ytmusic_error "Something went wrong" =
      ⟨500, "Internal error: Something went wrong"⟩ :=
  ⟨(C1_error_classifier _).1 (by decide),
   (C1_error_classifier _).2.1 (by decide) (by decide),
   (C1_error_classifier _).2.2.1 (by decide) (by decide) (Or.inl (by decide)),
   (C1_error_classifier _).2.2.2 (by decide) (by decide) (by decide) (by decide)⟩

/-! ### JSON values

Values appearing in decoded JSON payloads and in upstream results. -/

/-- A JSON value, as produced by Python's `json.loads` and returned by the
upstream client. -/
inductive JValue where
  | null
  | bool (b : Bool)
  | num (n : Int)
  | str (s : String)
  | arr (elems : List JValue)
  | obj (fields : List (String × JValue))

/-- Python truthiness of a JSON value: `None`, `False`, `0`, `""`, `[]` and
`{}` are falsy. -/
def JValue.truthy : JValue → Bool
  | .null => false
  | .bool b => b
  | .num n => n != 0
  | .str s => !s.isEmpty
  | .arr xs => !xs.isEmpty
  | .obj fs => !fs.isEmpty

/-- Python's `dict.get(k)`: the value bound to `k`, or `None` when absent. -/
def dictGet (d : List (String × JValue)) (k : String) : Option JValue :=
  match d with
  | [] => none
  | (k', v) :: rest => if k' == k then some v else dictGet rest k

/-- Python's `a or b` over optional JSON values: the left operand when it is
present and truthy, the right operand otherwise. -/
def pyOrJ (a b : Option JValue) : Option JValue :=
  match a with
  | some v => if v.truthy then some v else b
  | none => b

/-! ### Playlist id extraction (`_get_playlist_id`, app.py lines 203-219) -/

/-- The message carried by `PlaylistResultError` (its `str()`): the class
appends this text to the `ValueError` arguments. -/
def playlistResultErrorMsg : String := "Could not extract playlist_id from response"

/-- An upstream `create_playlist` result: the Python value is typed
`str | dict`. -/
inductive UpstreamResult where
  | str (s : String)
  | dict (fields : List (String × JValue))

/-- The value bound to the local variable `id` in `_get_playlist_id` before
the `if not id` check: for a mapping,
`result.get("playlistId") or result.get("id")`; for a string, the string. -/
def extractedId : UpstreamResult → Option JValue
  | .dict d => pyOrJ (dictGet d "playlistId") (dictGet d "id")
  | .str s => some (.str s)

/-- Embedding of `_get_playlist_id`: raises `PlaylistResultError` when the
extracted value is `None` or falsy, else returns it. -/
def _get_playlist_id (result : UpstreamResult) : Except String JValue :=
  match extractedId result with
  | some v => if v.truthy then .ok v else .error playlistResultErrorMsg
  | none => .error playlistResultErrorMsg

/-! ### Create-playlist handler (app.py lines 222-241, requests.py lines 7-12) -/

/-- The response model `resp.CreatePlaylist`. -/
structure CreatePlaylistResp where
  playlist_id : JValue

/-- Outcome of the `create_playlist` handler body given the outcome of the
upstream `ytmusic.create_playlist` call: any exception (upstream failure or
`PlaylistResultError`) is routed through `handle_ytmusic_error`; otherwise the
extracted id is returned as `resp.CreatePlaylist`. -/
def create_playlist_result (upstream : Except String UpstreamResult) :
    Except HTTPError CreatePlaylistResp :=
  match upstream with
  | .error e => .error (handle_ytmusic_error e)
  | .ok result =>
    match _get_playlist_id result with
    | .error msg => .error (handle_ytmusic_error msg)
    | .ok v => .ok ⟨v⟩

/-- The validated request model `req.CreatePlaylist`. -/
structure CreatePlaylistReq where
  title : String
  description : String
  privacy_status : String
deriving DecidableEq

/-- A raw create-playlist request body: each field present or absent. -/
structure CreatePlaylistBody where
  title : Option String
  description : Option String
  privacy_status : Option String

/-- Pydantic validation of the create-playlist body: `title` and
`description` are required, `privacy_status` defaults to `"PRIVATE"`. -/
def validate_create_playlist (b : CreatePlaylistBody) : Except Unit CreatePlaylistReq :=
  match b.title, b.description with
  | some t, some d =>
      .ok { title := t, description := d
            privacy_status := b.privacy_status.getD "PRIVATE" }
  | _, _ => .error ()

/-- Embedding of the `create_playlist` handler: it invokes the upstream
operation with the validated request's `title`, `description` and
`privacy_status`, then processes the result. -/
def create_playlist (data : CreatePlaylistReq)
    (up : String → String → String → Except String UpstreamResult) :
    Except HTTPError CreatePlaylistResp :=
  create_playlist_result (up data.title data.description data.privacy_status)

/-- C4: id extraction in the create-playlist handler: a string result is
itself the id; a mapping yields the value under "playlistId" (when truthy),
falling back to the value under "id"; the handler answers
`{playlist_id := id}` for a non-empty id and a 500-class internal error for an
empty mapping or empty string. -/
theorem C4_create_playlist_extraction (s : String) (d : List (String × JValue)) (v : JValue) :
    (s.isEmpty = false → create_playlist_result (.ok (.str s)) = .ok ⟨.str s⟩) ∧
    (dictGet d "playlistId" = some v → v.truthy = true →
      create_playlist_result (.ok (.dict d)) = .ok ⟨v⟩) ∧
    (dictGet d "playlistId" = none → dictGet d "id" = some v → v.truthy = true →
      create_playlist_result (.ok (.dict d)) = .ok ⟨v⟩) ∧
    create_playlist_result (.ok (.dict [])) =
      .error ⟨500, "Internal error: " ++ playlistResultErrorMsg⟩ ∧
    create_playlist_result (.ok (.str "")) =
      .error ⟨500, "Internal error: " ++ playlistResultErrorMsg⟩ := by
  refine ⟨?_, ?_, ?_, ?_, ?_⟩
  · intro h
    simp [create_playlist_result, _get_playlist_id, extractedId, JValue.truthy, h]
  · intro h1 h2
    simp [create_playlist_result, _get_playlist_id, extractedId, pyOrJ, h1, h2]
  · intro h1 h2 h3
    simp [create_playlist_result, _get_playlist_id, extractedId, pyOrJ, h1, h2, h3]
  · rfl
  · rfl

/-- C4 witness: the four documented scenarios evaluated concretely. -/
theorem C4_create_playlist_extraction_witness :
    create_playlist_result (.ok (.str "PL123")) = .ok ⟨.str "PL123"⟩ ∧
    create_playlist_result
        (.ok (.dict [("playlistId", .str "PL123"), ("title", .str "T")])) =
      .ok ⟨.str "PL123"⟩ ∧
    create_playlist_result (.ok (.dict [("id", .str "PL123")])) = .ok ⟨.str "PL123"⟩ ∧
    create_playlist_result (.ok (.dict [])) =
      .error ⟨500, "Internal error: " ++ playlistResultErrorMsg⟩ ∧
    create_playlist_result (.ok (.str "")) =
      .error ⟨500, "Internal error: " ++ playlistResultErrorMsg⟩ :=
  ⟨(C4_create_playlist_extraction "PL123" [] .null).1 rfl,
   (C4_create_playlist_extraction ""
      [("playlistId", .str "PL123"), ("title", .str "T")] (.str "PL123")).2.1 rfl rfl,
   (C4_create_playlist_extraction "" [("id", .str "PL123")] (.str "PL123")).2.2.1 rfl rfl rfl,
   (C4_create_playlist_extraction "" [] .null).2.2.2.1,
   (C4_create_playlist_extraction "" [] .null).2.2.2.2⟩

/-- C10: in id extraction the fallback from "playlistId" to "id" happens
whenever the value under "playlistId" is missing or falsy, and whenever the
finally extracted value is falsy (or absent) the handler raises
`PlaylistResultError` instead of returning it. -/
theorem C10_extraction_fallback (d : List (String × JValue)) (r : UpstreamResult) (v : JValue) :
    (dictGet d "playlistId" = none → extractedId (.dict d) = dictGet d "id") ∧
    (dictGet d "playlistId" = some v → v.truthy = false →
      extractedId (.dict d) = dictGet d "id") ∧
    (extractedId r = some v → v.truthy = false →
      _get_playlist_id r = .error playlistResultErrorMsg) ∧
    (extractedId r = none → _get_playlist_id r = .error playlistResultErrorMsg) := by
  refine ⟨?_, ?_, ?_, ?_⟩
  · intro h; simp [extractedId, pyOrJ, h]
  · intro h1 h2; simp [extractedId, pyOrJ, h1, h2]
  · intro h1 h2; simp [_get_playlist_id, h1, h2]
  · intro h; simp [_get_playlist_id, h]

/-- C10 witness: fallback on a falsy "playlistId" value, fallback on a missing
key, and the error raised on a falsy extracted value, all evaluated
concretely. -/
theorem C10_extraction_fallback_witness :
    extractedId (.dict [("playlistId", .str ""), ("id", .str "PL9")]) =
      dictGet [("playlistId", .str ""), ("id", .str "PL9")] "id" ∧
    extractedId (.dict [("id", .str "PL9")]) = dictGet [("id", .str "PL9")] "id" ∧
    _get_playlist_id (.str "") = .error playlistResultErrorMsg ∧
    _get_playlist_id (.dict [("playlistId", .str "")]) = .error playlistResultErrorMsg :=
  ⟨(C10_extraction_fallback [("playlistId", .str ""), ("id", .str "PL9")]
      (.str "") (.str "")).2.1 rfl rfl,
   (C10_extraction_fallback [("id", .str "PL9")] (.str "") .null).1 rfl,
   (C10_extraction_fallback [] (.str "") (.str "")).2.2.1 rfl rfl,
   (C10_extraction_fallback [] (.dict [("playlistId", .str "")]) .null).2.2.2 rfl⟩

/-- C5: a create-playlist body omitting `privacy_status` validates to a
request carrying `privacy_status = "PRIVATE"`, and the handler invokes the
upstream create operation with `"PRIVATE"`. -/
theorem C5_privacy_status_default (t d : String)
    (up : String → String → String → Except String UpstreamResult) :
    validate_create_playlist ⟨some t, some d, none⟩ = .ok ⟨t, d, "PRIVATE"⟩ ∧
    (∀ r, validate_create_playlist ⟨some t, some d, none⟩ = .ok r →
      create_playlist r up = create_playlist_result (up t d "PRIVATE")) := by
  refine ⟨rfl, ?_⟩
  intro r h
  have hr : r = ⟨t, d, "PRIVATE"⟩ := by
    simpa [validate_create_playlist] using h.symm
  subst hr
  rfl

/-- Fixed upstream create operation used to witness C5. -/
def upConst : String → String → String → Except String UpstreamResult :=
  fun _ _ _ => .ok (.str "PL1")

/-- C5 witness: a concrete body without `privacy_status` validates with the
default and drives the upstream call with "PRIVATE". -/
theorem C5_privacy_status_default_witness :
    validate_create_playlist ⟨some "T", some "D", none⟩ = .ok ⟨"T", "D", "PRIVATE"⟩ ∧
    create_playlist ⟨"T", "D", "PRIVATE"⟩ upConst =
      create_playlist_result (upConst "T" "D" "PRIVATE") :=
  ⟨(C5_privacy_status_default "T" "D" upConst).1,
   (C5_privacy_status_default "T" "D" upConst).2 ⟨"T", "D", "PRIVATE"⟩
     (C5_privacy_status_default "T" "D" upConst).1⟩

/-! ### Credential resolver (`get_ytmusic`, app.py lines 30-78)

The per-request effects — `json.loads`, the `YTMusic(auth=...)` construction
together with the `logger.debug` access to the parsed mapping (both inside the
same `try`), and the filesystem existence check — are supplied as an explicit
environment. -/

/-- Per-request effect environment for the credential resolver. -/
structure AuthEnv where
  /-- Outcome of `json.loads` on a header payload: decoded value or the
  `JSONDecodeError` text. -/
  loads : String → Except String JValue
  /-- Outcome of `YTMusic(auth=auth_dict)` (and the preceding `.keys()`
  access): success, or the text of any non-decode exception. -/
  construct : JValue → Except String Unit
  /-- Outcome of `Path(x).exists()`. -/
  fileExists : String → Bool

/-- The client handle the resolver hands to the route handler, tagged by the
authentication mode it was built from. -/
inductive YTHandle where
  | fromAuth (a : JValue)
  | fromFile (p : String)
  | anon

/-- The fall-through taken when the inline-credential header is absent or
empty: the `if x_auth_file:` statement and the final anonymous construction
in `get_ytmusic`. -/
def get_ytmusic_file (env : AuthEnv) (x_auth_file : Option String) :
    Except HTTPError YTHandle :=
  if pyTruthy x_auth_file then
    match x_auth_file with
    | some p =>
      if env.fileExists p then .ok (.fromFile p)
      else .error ⟨400, "Authentication file not found: " ++ p⟩
    | none => .ok .anon
  else
    .ok .anon

/-- Embedding of `get_ytmusic`: the inline-credential header, when truthy, is
decoded and used to build the handle (decode failure and construction failure
each raise a 400); otherwise resolution falls through to the file header. -/
def get_ytmusic (env : AuthEnv) (x_auth_file x_auth_data : Option String) :
    Except HTTPError YTHandle :=
  if pyTruthy x_auth_data then
    match x_auth_data with
    | some d =>
      match env.loads d with
      | .error e => .error ⟨400, "Invalid JSON in X-Auth-Data header: " ++ e⟩
      | .ok a =>
        match env.construct a with
        | .error e => .error ⟨400, "Authentication failed: " ++ e⟩
        | .ok _ => .ok (.fromAuth a)
    | none => get_ytmusic_file env x_auth_file
  else
    get_ytmusic_file env x_auth_file

/-- C2: with a non-empty inline-credential header the handle is built from the
decoded inline payload, and the file-path header has no effect: two requests
differing only in the file-path header resolve identically. -/
theorem C2_inline_takes_precedence (env : AuthEnv) (f₁ f₂ : Option String) (d : String)
    (hd : d.isEmpty = false) :
    get_ytmusic env f₁ (some d) = get_ytmusic env f₂ (some d) ∧
    (∀ a, env.loads d = .ok a → env.construct a = .ok () →
      get_ytmusic env f₁ (some d) = .ok (.fromAuth a)) := by
  constructor
  · simp [get_ytmusic, pyTruthy, hd]
  · intro a h1 h2
    simp [get_ytmusic, pyTruthy, hd, h1, h2]

/-- Effect environment used by witnesses: decoding succeeds only on the text
"\x7b\x7d" (the empty JSON object), construction always succeeds, no file
exists. -/
def envOk : AuthEnv where
  loads := fun s => if s = "{}" then .ok (.obj []) else .error ("Expecting value: " ++ s)
  construct := fun _ => .ok ()
  fileExists := fun _ => false

/-- C2 witness: two requests with the same inline payload and different file
headers resolve to the same handle, built from the inline payload. -/
theorem C2_inline_takes_precedence_witness :
    get_ytmusic envOk (some "/a") (some "{}") = get_ytmusic envOk (some "/b") (some "{}") ∧
    get_ytmusic envOk (some "/a") (some "{}") = .ok (.fromAuth (.obj [])) :=
  ⟨(C2_inline_takes_precedence envOk (some "/a") (some "/b") "{}" rfl).1,
   (C2_inline_takes_precedence envOk (some "/a") (some "/b") "{}" rfl).2 (.obj []) rfl rfl⟩

/-- C3: a non-decodable inline payload yields exactly a 400 whose detail
reports the invalid JSON, and a construction failure on a decoded payload
yields exactly a 400 authentication-failed error — in both cases never a 500
and never an unhandled exception. -/
theorem C3_inline_failures_are_400 (env : AuthEnv) (f : Option String) (d : String)
    (hd : d.isEmpty = false) :
    (∀ e, env.loads d = .error e →
      get_ytmusic env f (some d) =
        .error ⟨400, "Invalid JSON in X-Auth-Data header: " ++ e⟩) ∧
    (∀ a e, env.loads d = .ok a → env.construct a = .error e →
      get_ytmusic env f (some d) = .error ⟨400, "Authentication failed: " ++ e⟩) := by
  constructor
  · intro e h
    simp [get_ytmusic, pyTruthy, hd, h]
  · intro a e h1 h2
    simp [get_ytmusic, pyTruthy, hd, h1, h2]

/-- Effect environment whose construction step always fails, used to witness
the authentication-failed branch of C3. -/
def envConstructFails : AuthEnv where
  loads := fun s => if s = "{}" then .ok (.obj []) else .error ("Expecting value: " ++ s)
  construct := fun _ => .error "bad cookie"
  fileExists := fun _ => false

/-- C3 witness: a malformed payload and a failing construction, each resolved
to its concrete 400 error. -/
theorem C3_inline_failures_are_400_witness :
    get_ytmusic envOk none (some "oops") =
      .error ⟨400, "Invalid JSON in X-Auth-Data header: " ++ ("Expecting value: " ++ "oops")⟩ ∧
    get_ytmusic envConstructFails none (some "{}") =
      .error ⟨400, "Authentication failed: " ++ "bad cookie"⟩ :=
  ⟨(C3_inline_failures_are_400 envOk none "oops" rfl).1 ("Expecting value: " ++ "oops") rfl,
   (C3_inline_failures_are_400 envConstructFails none "{}" rfl).2 (.obj []) "bad cookie"
     rfl rfl⟩

/-- C9: an empty inline-credential header is treated as absent (no decode is
attempted; resolution behaves exactly as with the header missing), and an
empty file-path header is likewise treated as absent, resolving to the
anonymous handle rather than a file-not-found error. -/
theorem C9_empty_headers_are_absent (env : AuthEnv) (f : Option String) :
    get_ytmusic env f (some "") = get_ytmusic env f none ∧
    get_ytmusic env (some "") none = .ok .anon ∧
    get_ytmusic env (some "") (some "") = .ok .anon := by
  refine ⟨?_, ?_, ?_⟩ <;> rfl

/-! ### Edit-playlist handler (`edit_playlist`, app.py lines 244-259)

Unlike `get_playlist`, `create_playlist`, `get_library_playlists` and
`search`, this handler has no `try`/`except` around the upstream call. -/

/-- The response model `resp.Success`. -/
structure SuccessResp where
  status : String
  result : JValue

/-- What a handler lets escape: an `HTTPException` it raised deliberately, or
an exception it never caught, left to the framework's generic 500 fallback. -/
inductive RaisedError where
  | http (e : HTTPError)
  | unhandled (msg : String)
deriving DecidableEq

/-- Embedding of `edit_playlist` given the outcome of the upstream
`ytmusic.edit_playlist` call: the handler body has no exception handling, so
an upstream failure propagates unhandled; a result is wrapped in the success
envelope. -/
def edit_playlist (upstream : Except String JValue) : Except RaisedError SuccessResp :=
  match upstream with
  | .error e => .error (.unhandled e)
  | .ok r => .ok ⟨"success", r⟩

/-- C8 counterexample: for the upstream error "Playlist not found" the claim
says the response is the classified error (a 404 HTTPException), but the
handler propagates the exception unhandled. -/
theorem C8_counterexample :
    ¬ edit_playlist (.error "Playlist not found") =
        .error (.http (handle_ytmusic_error "Playlist not found")) := by
  intro h
  simp [edit_playlist] at h

/-- C8 amended: upstream errors raised during the playlist edit operation are
not classified: `edit_playlist` never invokes the classifier and lets the
exception propagate unhandled to the framework (whose fallback is a generic
500), while an upstream result is wrapped in the success envelope. -/
theorem C8_edit_playlist_unclassified (e : String) (r : JValue) :
    edit_playlist (.error e) = .error (.unhandled e) ∧
    edit_playlist (.ok r) = .ok ⟨"success", r⟩ :=
  ⟨rfl, rfl⟩

/-! ### Router fragment and stub handlers (app.py lines 489-533)

The three reserved namespaces are registered with `app.api_route(...,
methods=["GET", "POST", "PUT", "DELETE"])` and a `{path:path}` parameter, so
they match every sub-path but only those four methods; for any other method
the router finds a path-only (partial) match and answers 405 Method Not
Allowed (Starlette raises `HTTPException(405)`, serialized as
`{"detail": "Method Not Allowed"}`). The dispatcher fragment below also
routes `GET /api/library/playlists` (app.py lines 313-326), the
credential-consuming route the tests exercise, so that the stub theorems
quantify over a dispatcher that does consult the resolver and the upstream
client elsewhere. -/

/-- An HTTP method, including methods no route of the application
registers. -/
inductive Method where
  | get | post | put | delete | patch | options | trace | head
deriving DecidableEq

/-- Tests whether a method is GET. -/
def methodIsGet : Method → Bool
  | .get => true
  | _ => false

/-- Tests whether a method is among the four the stub routes register
(`methods=["GET", "POST", "PUT", "DELETE"]`). -/
def methodRegistered : Method → Bool
  | .get | .post | .put | .delete => true
  | _ => false

/-- A JSON-bodied route response: status code and body. -/
structure RouteResponse where
  status_code : Nat
  body : JValue

/-- Embedding of `podcasts_stub`. -/
def podcasts_stub (_path : String) : RouteResponse :=
  ⟨501, .obj [("detail", .str "Podcasts domain not implemented")]⟩

/-- Embedding of `explore_stub`. -/
def explore_stub (_path : String) : RouteResponse :=
  ⟨501, .obj [("detail", .str "Explore domain not implemented")]⟩

/-- Embedding of `browsing_stub`. -/
def browsing_stub (_path : String) : RouteResponse :=
  ⟨501, .obj [("detail", .str "Browsing domain not implemented")]⟩

/-- The upstream operations reachable from the routed fragment. -/
structure Upstream where
  /-- Outcome of `ytmusic.get_library_playlists()` on a given handle. -/
  get_library_playlists : YTHandle → Except String (List JValue)

/-- Embedding of `get_library_playlists` (app.py lines 313-326): resolver
failures short-circuit, upstream failures are classified. -/
def get_library_playlists_route (env : AuthEnv) (up : Upstream)
    (xf xd : Option String) : Except HTTPError RouteResponse :=
  match get_ytmusic env xf xd with
  | .error e => .error e
  | .ok h =>
    match up.get_library_playlists h with
    | .error e => .error (handle_ytmusic_error e)
    | .ok xs => .ok ⟨200, .arr xs⟩

/-- The 405 response the framework produces when a route matches the path but
not the method. -/
def methodNotAllowedResp : RouteResponse :=
  ⟨405, .obj [("detail", .str "Method Not Allowed")]⟩

/-- The router fragment: the three reserved stub namespaces (matched on their
path, dispatched for the four registered methods, 405 for any other method)
and the library-playlists route; `none` for paths outside the fragment. -/
def dispatch (env : AuthEnv) (up : Upstream) (xf xd : Option String)
    (m : Method) (path : String) : Option (Except HTTPError RouteResponse) :=
  if strStartsWith path "/api/podcasts/" then
    if methodRegistered m then some (.ok (podcasts_stub (path.drop 14)))
    else some (.ok methodNotAllowedResp)
  else if strStartsWith path "/api/explore/" then
    if methodRegistered m then some (.ok (explore_stub (path.drop 13)))
    else some (.ok methodNotAllowedResp)
  else if strStartsWith path "/api/browsing/" then
    if methodRegistered m then some (.ok (browsing_stub (path.drop 14)))
    else some (.ok methodNotAllowedResp)
  else if path == "/api/library/playlists" then
    if methodIsGet m then some (get_library_playlists_route env up xf xd)
    else some (.ok methodNotAllowedResp)
  else
    none

/-- Fixed upstream operations used by the closed C6 statements. -/
def upEmpty : Upstream :=
  ⟨fun _ => .ok []⟩

/-- C6 counterexample: the claim promises 501 for every HTTP method, but a
PATCH request under the podcasts namespace is answered 405 Method Not
Allowed, since the stub route registers only GET, POST, PUT and DELETE. -/
theorem C6_stub_routes_counterexample :
    dispatch envOk upEmpty none none .patch "/api/podcasts/x" =
      some (.ok ⟨405, .obj [("detail", .str "Method Not Allowed")]⟩) ∧
    ¬ dispatch envOk upEmpty none none .patch "/api/podcasts/x" =
        some (.ok ⟨501, .obj [("detail", .str "Podcasts domain not implemented")]⟩) := by
  refine ⟨rfl, ?_⟩
  intro h
  rw [show dispatch envOk upEmpty none none .patch "/api/podcasts/x" =
      some (.ok ⟨405, .obj [("detail", .str "Method Not Allowed")]⟩) from rfl] at h
  simp at h

/-- C6 amended: for each of the four registered methods (GET, POST, PUT,
DELETE), every request under the three reserved namespaces, with any
sub-path, any credential headers and any upstream behavior, is answered 501
with the body naming the matched domain — the constant answer for every
environment shows neither the resolver nor any upstream operation affects it
— while any other method is answered 405 Method Not Allowed. -/
theorem C6_stub_routes (env : AuthEnv) (up : Upstream) (xf xd : Option String)
    (m : Method) (sub : String) :
    (methodRegistered m = true →
      dispatch env up xf xd m ("/api/podcasts/" ++ sub) =
        some (.ok ⟨501, .obj [("detail", .str "Podcasts domain not implemented")]⟩) ∧
      dispatch env up xf xd m ("/api/explore/" ++ sub) =
        some (.ok ⟨501, .obj [("detail", .str "Explore domain not implemented")]⟩) ∧
      dispatch env up xf xd m ("/api/browsing/" ++ sub) =
        some (.ok ⟨501, .obj [("detail", .str "Browsing domain not implemented")]⟩)) ∧
    (methodRegistered m = false →
      dispatch env up xf xd m ("/api/podcasts/" ++ sub) =
        some (.ok ⟨405, .obj [("detail", .str "Method Not Allowed")]⟩) ∧
      dispatch env up xf xd m ("/api/explore/" ++ sub) =
        some (.ok ⟨405, .obj [("detail", .str "Method Not Allowed")]⟩) ∧
      dispatch env up xf xd m ("/api/browsing/" ++ sub) =
        some (.ok ⟨405, .obj [("detail", .str "Method Not Allowed")]⟩)) := by
  obtain ⟨l⟩ := sub
  constructor
  · intro h
    cases m <;> first
      | exact ⟨rfl, rfl, rfl⟩
      | simp [methodRegistered] at h
  · intro h
    cases m <;> first
      | exact ⟨rfl, rfl, rfl⟩
      | simp [methodRegistered] at h

/-- C6 witness: one registered and one unregistered method evaluated on
concrete stub requests. -/
theorem C6_stub_routes_witness :
    dispatch envOk upEmpty none none .get ("/api/podcasts/" ++ "x") =
      some (.ok ⟨501, .obj [("detail", .str "Podcasts domain not implemented")]⟩) ∧
    dispatch envOk upEmpty none none .patch ("/api/explore/" ++ "x") =
      some (.ok ⟨405, .obj [("detail", .str "Method Not Allowed")]⟩) :=
  ⟨((C6_stub_routes envOk upEmpty none none .get "x").1 rfl).1,
   ((C6_stub_routes envOk upEmpty none none .patch "x").2 rfl).2.1⟩

/-! ### Filesystem model and temp-file cleanup (app.py lines 126-169, 451-471)

The filesystem is an existence map from paths to Booleans; creating and
unlinking a path update it. The fallible steps of each handler —
`ytmusic_setup`, `json.load`, `shutil.copy`, `file.read()`,
`ytmusic.upload_song` — are supplied as environment outcomes. -/

/-- Filesystem state: which paths exist. -/
abbrev FS := String → Bool

/-- Creating (or overwriting) a file at `p`. -/
def fsCreate (fs : FS) (p : String) : FS :=
  fun q => if q == p then true else fs q

/-- Unlinking the file at `p`. -/
def fsRemove (fs : FS) (p : String) : FS :=
  fun q => if q == p then false else fs q

/-- The response model `resp.SetupWithContent`. -/
structure SetupWithContent where
  success : Bool
  filepath : String
  message : String
  auth_content : List (String × JValue)

/-- Outcomes of the fallible steps inside `setup_browser`. -/
structure SetupEnv where
  /-- Failure text of `ytmusic_setup`, or `none` on success. -/
  setup_err : Option String
  /-- Failure text of `open`/`json.load` on the generated file, or `none`. -/
  read_err : Option String
  /-- Failure text of `shutil.copy` to the caller's path, or `none`. -/
  copy_err : Option String
  /-- The decoded content of the generated file when reading succeeds. -/
  auth_content : List (String × JValue)

/-- Embedding of `setup_browser`: the named temporary file is created at
`tmp_path`, the body runs under an inner `try`/`finally` that unlinks
`tmp_path` whenever it still exists, and the outer handler converts any
exception to a 400 "Setup failed" error. The copy to `data.filepath` runs
only when that field is truthy. Returns the final filesystem and the
response. -/
def setup_browser (env : SetupEnv) (fs : FS) (tmp_path : String)
    (filepath : Option String) : FS × Except HTTPError SetupWithContent :=
  let fs1 := fsCreate fs tmp_path
  let inner : FS × Except String SetupWithContent :=
    match env.setup_err with
    | some e => (fs1, .error e)
    | none =>
      match env.read_err with
      | some e => (fs1, .error e)
      | none =>
        match filepath with
        | some fp =>
          if fp.isEmpty then
            (fs1, .ok ⟨true, tmp_path, "Successfully generated browser authentication",
                       env.auth_content⟩)
          else
            match env.copy_err with
            | some e => (fs1, .error e)
            | none =>
              (fsCreate fs1 fp,
               .ok ⟨true, fp, "Successfully generated browser authentication",
                    env.auth_content⟩)
        | none =>
          (fs1, .ok ⟨true, tmp_path, "Successfully generated browser authentication",
                     env.auth_content⟩)
  let fs2 := if inner.1 tmp_path then fsRemove inner.1 tmp_path else inner.1
  match inner.2 with
  | .ok r => (fs2, .ok r)
  | .error e => (fs2, .error ⟨400, "Setup failed: " ++ e⟩)

/-- Outcomes of the fallible steps inside `upload_song`. -/
structure UploadEnv where
  /-- Failure text of `await file.read()`, or `none` on success. -/
  read_err : Option String
  /-- Outcome of `ytmusic.upload_song(str(temp_path))`. -/
  upload_result : Except String JValue

/-- Embedding of `upload_song`: the uploaded bytes are written to
`/tmp/<filename>`, the upstream upload runs, and the `finally` block unlinks
the temporary path whenever it exists; exceptions propagate unhandled (the
handler has no `except`). Returns the final filesystem and the outcome. -/
def upload_song (env : UploadEnv) (fs : FS) (filename : String) :
    FS × Except RaisedError SuccessResp :=
  let temp_path := "/tmp/" ++ filename
  let inner : FS × Except RaisedError SuccessResp :=
    match env.read_err with
    | some e => (fs, .error (.unhandled e))
    | none =>
      let fsW := fsCreate fs temp_path
      match env.upload_result with
      | .error e => (fsW, .error (.unhandled e))
      | .ok r => (fsW, .ok ⟨"success", r⟩)
  let fs2 := if inner.1 temp_path then fsRemove inner.1 temp_path else inner.1
  (fs2, inner.2)

/-- C7: on every exit path of the setup handler and of the upload-song handler
— success, failure of the upstream setup/upload step, failure of the read or
copy step — the temporary file does not exist once the handler finishes. -/
theorem C7_temp_file_cleanup (senv : SetupEnv) (uenv : UploadEnv) (fs : FS)
    (tmp_path : String) (filepath : Option String) (filename : String) :
    (setup_browser senv fs tmp_path filepath).1 tmp_path = false ∧
    (upload_song uenv fs filename).1 ("/tmp/" ++ filename) = false := by
  constructor
  · unfold setup_browser
    rcases senv with ⟨se, re, ce, ac⟩
    rcases se with _ | e₁ <;> rcases re with _ | e₂ <;> rcases filepath with _ | fp <;>
      rcases ce with _ | e₃ <;>
      simp [fsCreate, fsRemove, pyTruthy] <;>
      by_cases hfp : fp.isEmpty <;>
      simp [hfp, fsCreate, fsRemove]
  · unfold upload_song
    rcases uenv with ⟨re, ur⟩
    rcases re with _ | e₁ <;> rcases ur with e₂ | r <;>
      simp [fsCreate, fsRemove] <;>
      by_cases h : fs ("/tmp/" ++ filename) <;> simp [h, fsRemove]

end YTProxy
